import Mathlib

/-!
Verification of the ROI-monitoring core of the binance-trading-app repository.

The development shallowly embeds the decision logic of the three monitor
variants (`roi_monitor.py`, `monitor_sqdusdt.py`, `monitor_sqdusdt_live.py`):
the ROI calculator, the threshold table lookup, the log-evidence correlation
functions (`check_server_log`, `check_logs_for_success`) and the per-tick
behaviour of the two monitoring loops.  Numeric values are embedded as exact
rationals; module-level constants become parameters or Lean constants with the
same values.
-/

namespace Binance

/-- Constant `FEE_RATE = 0.0004`, the module constant shared by all three variants. -/
def FEE_RATE : ℚ := 4 / 10000

/-- Function `roi_monitor.calculate_roi` with the module constant `FEE_RATE`
factored out as an explicit first parameter (the source reads it from the
module-level constant).  Returns the pair `(roi, net_pnl)`.
Mirrors the source order: gross PnL by side, notional, fees on both legs,
net PnL, then the `notional <= 0` guard before the division. -/
def calculate_roi_fee (fee_rate entry current qty : ℚ) (side : String)
    (leverage : ℚ) : ℚ × ℚ :=
  let gross_pnl := if side = "LONG" then (current - entry) * qty
                   else (entry - current) * qty
  let notional := qty * entry
  let fees := notional * fee_rate + current * qty * fee_rate
  let net_pnl := gross_pnl - fees
  if notional ≤ 0 then (0, 0)
  else ((net_pnl * leverage / notional) * 100, net_pnl)

/-- Function `roi_monitor.calculate_roi`: the source function, at the module's
`FEE_RATE`. -/
def calculate_roi (entry current qty : ℚ) (side : String) (leverage : ℚ) :
    ℚ × ℚ :=
  calculate_roi_fee FEE_RATE entry current qty side leverage

/-- Function `monitor_sqdusdt.calculate_roi`: identical arithmetic but returns only
the ROI value (`return 0` on non-positive notional, `return roi` otherwise). -/
def mon_calculate_roi (entry current qty : ℚ) (side : String)
    (leverage : ℚ) : ℚ :=
  let gross_pnl := if side = "LONG" then (current - entry) * qty
                   else (entry - current) * qty
  let notional := qty * entry
  let fees := notional * FEE_RATE + current * qty * FEE_RATE
  let net_pnl := gross_pnl - fees
  if notional ≤ 0 then 0
  else (net_pnl * leverage / notional) * 100

/-- Function `monitor_sqdusdt_live.calculate_roi`: same arithmetic again (the
`float(leverage)` cast is the identity on rationals). -/
def live_calculate_roi (entry current qty : ℚ) (side : String)
    (leverage : ℚ) : ℚ :=
  let gross_pnl := if side = "LONG" then (current - entry) * qty
                   else (entry - current) * qty
  let notional := qty * entry
  let fees := notional * FEE_RATE + current * qty * FEE_RATE
  let net_pnl := gross_pnl - fees
  if notional ≤ 0 then 0
  else (net_pnl * leverage / notional) * 100

/-- Table `roi_monitor.THRESHOLDS`: the mode → required-ROI-percent table. -/
def THRESHOLDS : List (String × ℚ) :=
  [("ultra_fast", 3), ("scalp", 5), ("swing", 8), ("position", 10)]

/-- Lookup `THRESHOLDS.get(mode, 8.0)` as used at `roi_monitor.py:79`:
dictionary lookup with default `8.0`. -/
def threshold_for (mode : String) : ℚ :=
  (THRESHOLDS.lookup mode).getD 8

/-- Table `monitor_sqdusdt.THRESHOLDS` holding only the swing mode at 8.0. -/
def MON_THRESHOLDS : List (String × ℚ) := [("swing", 8)]

/-- Lookup `THRESHOLDS.get(mode, 8.0)` as used at `monitor_sqdusdt.py:117`. -/
def mon_threshold_for (mode : String) : ℚ :=
  (MON_THRESHOLDS.lookup mode).getD 8

/-- Constant `monitor_sqdusdt_live.THRESHOLD = 8.0`. -/
def THRESHOLD : ℚ := 8

/-- ASCII lowercase code of a character (`str.lower` on the ASCII range,
which covers every pattern the monitors grep for). -/
def charLowerNat (c : Char) : Nat :=
  if 65 ≤ c.toNat ∧ c.toNat ≤ 90 then c.toNat + 32 else c.toNat

/-- Case-insensitive character equality. -/
def eqIgnoreCase (a b : Char) : Bool := charLowerNat a == charLowerNat b

/-- Test that `pat` is a leading segment of `s`, comparing characters with `eqc`. -/
def charsHasPreBy (eqc : Char → Char → Bool) : List Char → List Char → Bool
  | [], _ => true
  | _ :: _, [] => false
  | a :: ps, b :: ss => eqc a b && charsHasPreBy eqc ps ss

/-- Test that `pat` occurs somewhere in `s`, comparing characters with `eqc`. -/
def charsContainsBy (eqc : Char → Char → Bool) : List Char → List Char → Bool
  | s, pat =>
    match s with
    | [] => pat.isEmpty
    | _ :: rest => charsHasPreBy eqc pat s || charsContainsBy eqc rest pat

/-- The suffix of `s` right after the first occurrence of `pat` (`none`
when `pat` does not occur), comparing characters with `eqc`. -/
def charsAfterFirstBy (eqc : Char → Char → Bool) :
    List Char → List Char → Option (List Char)
  | s, pat =>
    match s with
    | [] => if pat.isEmpty then some [] else none
    | _ :: rest =>
      if charsHasPreBy eqc pat s then some (s.drop pat.length)
      else charsAfterFirstBy eqc rest pat

/-- Python's case-sensitive `pat in s`. -/
def substrCS (s pat : String) : Bool :=
  charsContainsBy (fun a b => a == b) s.toList pat.toList

/-- Python's `pat in s.lower()` for an already-lowercase `pat`:
case-insensitive containment. -/
def substrCI (s pat : String) : Bool :=
  charsContainsBy eqIgnoreCase s.toList pat.toList

/-- One line of the server log.  `raw` is the raw text of the line;
`fieldsSymbol` abstracts `json.loads(line).get('fields', \x7b\x7d).get('symbol')`:
`some sym` when the line parses as JSON carrying a `fields.symbol` value,
`none` when parsing fails or the field is missing. -/
structure LogLine where
  raw : String
  fieldsSymbol : Option String
deriving DecidableEq, Repr

/-- Result of scanning one log line in
`monitor_sqdusdt_live.check_logs_for_success`: the function returns
`True` (here `confirmed`), `'closing'` (here `closing`) or falls through
(here `absent`). -/
inductive CloseStatus where
  | confirmed
  | closing
  | absent
deriving DecidableEq, Repr

/-- The per-line tests of `check_logs_for_success`, in source order: the
full-close branch (case-insensitive phrase, raw `'SQDUSDT'` substring, then
the structured `fields.symbol` equality), then the Ginie-closing branch
(case-sensitive phrase, raw substring, structured equality).  A line whose
JSON parse fails or whose symbol field differs falls through each branch,
exactly as the `except: pass` does. -/
def checkLine (l : LogLine) : CloseStatus :=
  if substrCI l.raw "full close order placed" ∧ substrCS l.raw "SQDUSDT"
      ∧ l.fieldsSymbol = some "SQDUSDT" then
    .confirmed
  else if substrCS l.raw "Ginie closing position" ∧ substrCS l.raw "SQDUSDT"
      ∧ l.fieldsSymbol = some "SQDUSDT" then
    .closing
  else
    .absent

/-- First non-`absent` line of an already most-recent-first list
(the `for line in reversed(...)` loop: `return` on the first match). -/
def scanStatus : List LogLine → CloseStatus
  | [] => .absent
  | l :: rest =>
    match checkLine l with
    | .absent => scanStatus rest
    | st => st

/-- The lookback window `reversed(lines[-500:])`: last 500 lines,
most recent first. -/
def logWindow (lines : List LogLine) : List LogLine :=
  lines.reverse.take 500

/-- Function `monitor_sqdusdt_live.check_logs_for_success` on the log's lines. -/
def check_logs_for_success (lines : List LogLine) : CloseStatus :=
  scanStatus (logWindow lines)

/-- One line of stdout-style grep matching for
`monitor_sqdusdt.check_server_log`: the pattern `-i 'sqdusdt.*booking
profit'` matches a line iff, after the first occurrence of `"sqdusdt"`
(case-insensitively), `"booking profit"` occurs. -/
def matchesGrep (line : String) : Bool :=
  match charsAfterFirstBy eqIgnoreCase line.toList "sqdusdt".toList with
  | none => false
  | some suffix => charsContainsBy eqIgnoreCase suffix "booking profit".toList

/-- Function `monitor_sqdusdt.check_server_log`: grep returns every matching line of
the whole file; the function returns that stdout when non-empty and `None`
otherwise.  Only the raw text of each line is consulted. -/
def check_server_log (lines : List LogLine) : Option (List LogLine) :=
  match lines.filter (fun l => matchesGrep l.raw) with
  | [] => none
  | ms => some ms

/-- How a disappearance is surfaced by the monitors: a confirmed-success
report or an unconfirmed "may have been closed" report. -/
inductive CloseReport where
  | confirmedSuccess
  | unconfirmedClosed
deriving DecidableEq, Repr

/-- The disappearance branch of `monitor_sqdusdt_live.main`
(lines 128–147): `success, log_data = check_logs_for_success()`; the
`[SUCCESS] Position closed successfully!` block is printed iff `success`
is truthy — which both `True` and the non-empty string `'closing'` are. -/
def disappearance_report (logs : List LogLine) : CloseReport :=
  match check_logs_for_success logs with
  | .absent => .unconfirmedClosed
  | _ => .confirmedSuccess

/-- The final report of `monitor_sqdusdt.main` when `position_closed`
(lines 173–179): `check_server_log()` non-`None` prints the
`Confirmed in server.log` block, otherwise the `[WARN] Check server.log`
line. -/
def mon_final_report (logs : List LogLine) : CloseReport :=
  match check_server_log logs with
  | some _ => .confirmedSuccess
  | none => .unconfirmedClosed

/-- A position record as read from the snapshot source (the fields the
monitors consume: `symbol, side, entry_price, highest_price, remaining_qty,
leverage, mode`). -/
structure Position where
  symbol : String
  side : String
  entry_price : ℚ
  highest_price : ℚ
  remaining_qty : ℚ
  leverage : ℚ
  mode : String
deriving DecidableEq, Repr

/-- Function `monitor_sqdusdt.find_sqdusdt_position`: `None` on falsy data, else the
first record whose `symbol` equals `'SQDUSDT'`.  A `none` snapshot models
both a failed fetch (`get_positions` returned `None`) and a falsy response. -/
def find_sqdusdt_position (data : Option (List Position)) : Option Position :=
  match data with
  | none => none
  | some positions => positions.find? (fun p => p.symbol == "SQDUSDT")

/-- Constant `monitor_sqdusdt.CHECK_INTERVAL = 10` seconds. -/
def CHECK_INTERVAL : ℕ := 10

/-- Constant `monitor_sqdusdt.MAX_MONITORING_TIME = 3600` seconds. -/
def MAX_MONITORING_TIME : ℚ := 3600

/-- Constant `monitor_sqdusdt_live.CHECK_INTERVAL = 5` seconds. -/
def LIVE_CHECK_INTERVAL : ℕ := 5

/-- The per-tick mutable state of `monitor_sqdusdt.main`:
`check_count`, `last_roi`, `roi_progression` (the ROI samples; the
timestamp paired with each sample is left implicit). -/
structure MonState where
  checkCount : ℕ
  lastRoi : Option ℚ
  roiProgression : List ℚ
deriving DecidableEq, Repr

/-- Why `monitor_sqdusdt.main` set `position_closed = True` and broke out:
the symbol was not found in the snapshot, or the ROI threshold was hit. -/
inductive MonBreakReason where
  | notFound
  | thresholdHit
deriving DecidableEq, Repr

/-- Outcome of one iteration of the `while True` loop of
`monitor_sqdusdt.main`. -/
inductive MonOutcome where
  | nextTick (s : MonState) (sleepSecs : ℕ)
  | closedBreak (s : MonState) (reason : MonBreakReason)
  | timedOut (s : MonState)
deriving DecidableEq, Repr

/-- One iteration of `monitor_sqdusdt.main`'s loop (lines 89–160), in
source order: the elapsed-time check breaks with the timeout message
before `check_count` is incremented; a snapshot without the symbol
(including a failed fetch) breaks with `position_closed = True`; otherwise
the ROI is computed and appended to `roi_progression`, a threshold hit
breaks (without updating `last_roi`), and the below-threshold path updates
`last_roi` and sleeps `CHECK_INTERVAL`. -/
def monitor_tick (s : MonState) (elapsed : ℚ)
    (data : Option (List Position)) : MonOutcome :=
  if MAX_MONITORING_TIME < elapsed then .timedOut s
  else
    let s1 : MonState := { s with checkCount := s.checkCount + 1 }
    match find_sqdusdt_position data with
    | none => .closedBreak s1 .notFound
    | some pos =>
      let roi := mon_calculate_roi pos.entry_price pos.highest_price
        pos.remaining_qty pos.side pos.leverage
      let threshold := mon_threshold_for pos.mode
      let s2 : MonState :=
        { s1 with roiProgression := s1.roiProgression ++ [roi] }
      if threshold ≤ roi then .closedBreak s2 .thresholdHit
      else .nextTick { s2 with lastRoi := some roi } CHECK_INTERVAL

/-- How a whole `monitor_sqdusdt` session ends (`exhausted` marks the
supplied tick stream running out, which the real unbounded loop never
does). -/
inductive MonFinal where
  | timedOut (s : MonState)
  | closed (s : MonState) (reason : MonBreakReason)
  | exhausted (s : MonState)
deriving DecidableEq, Repr

/-- The `monitor_sqdusdt.main` loop driven by a stream of
(elapsed-seconds, snapshot) tick inputs. -/
def monitor_run (s : MonState) :
    List (ℚ × Option (List Position)) → MonFinal
  | [] => .exhausted s
  | (e, d) :: rest =>
    match monitor_tick s e d with
    | .nextTick s1 _ => monitor_run s1 rest
    | .closedBreak s1 r => .closed s1 r
    | .timedOut s1 => .timedOut s1

/-- The per-tick mutable state of `monitor_sqdusdt_live.main`. -/
structure LiveState where
  checkCount : ℕ
  lastRoi : Option ℚ
  roiHistory : List ℚ
deriving DecidableEq, Repr

/-- The status line printed by one successful or failed live tick (the
gap-band formatting within the below-threshold case is presentation and is
collapsed into `progress`). -/
inductive LiveEvent where
  | fetchFailWarning
  | thresholdHit (roi : ℚ)
  | progress (roi : ℚ)
deriving DecidableEq, Repr

/-- Outcome of one iteration of `monitor_sqdusdt_live.main`'s loop. -/
inductive LiveOutcome where
  | nextTick (s : LiveState) (sleepSecs : ℕ) (event : LiveEvent)
  | finished (s : LiveState) (report : CloseReport)
deriving DecidableEq, Repr

/-- One iteration of `monitor_sqdusdt_live.main`'s loop (lines 107–181):
`check_count` is incremented first; a falsy fetch prints the failure line
and sleeps the normal `CHECK_INTERVAL` without touching `roi_history` or
`last_roi`; a snapshot without the symbol breaks with the disappearance
report (log-confirmed or not); otherwise the ROI is appended to
`roi_history`, `last_roi` is set, the threshold comparison selects the
status line, and the loop sleeps `CHECK_INTERVAL`. -/
def live_tick (s : LiveState) (data : Option (List Position))
    (logs : List LogLine) : LiveOutcome :=
  let s1 : LiveState := { s with checkCount := s.checkCount + 1 }
  match data with
  | none => .nextTick s1 LIVE_CHECK_INTERVAL .fetchFailWarning
  | some positions =>
    match positions.find? (fun p => p.symbol == "SQDUSDT") with
    | none => .finished s1 (disappearance_report logs)
    | some pos =>
      let roi := live_calculate_roi pos.entry_price pos.highest_price
        pos.remaining_qty pos.side pos.leverage
      let s2 : LiveState :=
        { s1 with roiHistory := s1.roiHistory ++ [roi], lastRoi := some roi }
      if THRESHOLD ≤ roi then
        .nextTick s2 LIVE_CHECK_INTERVAL (.thresholdHit roi)
      else
        .nextTick s2 LIVE_CHECK_INTERVAL (.progress roi)

/-- A tick input on which `monitor_sqdusdt.main` makes ordinary progress:
still within the time budget, the snapshot query succeeded with the
tracked symbol present, and the computed ROI is below the mode's
threshold. -/
def monGoodTick (t : ℚ × Option (List Position)) : Prop :=
  t.1 ≤ MAX_MONITORING_TIME ∧
  ∃ pos, find_sqdusdt_position t.2 = some pos ∧
    mon_calculate_roi pos.entry_price pos.highest_price pos.remaining_qty
      pos.side pos.leverage < mon_threshold_for pos.mode

/-- Sample position whose ROI (49.58%) exceeds the 8% swing threshold. -/
def hitPos : Position := ⟨"SQDUSDT", "LONG", 100, 110, 10, 5, "swing"⟩

/-- Sample position at breakeven price: ROI is (slightly) negative. -/
def flatPos : Position := ⟨"SQDUSDT", "LONG", 100, 100, 10, 5, "swing"⟩

/-- A structured log line announcing a completed full close of SQDUSDT. -/
def fullCloseLine : LogLine :=
  ⟨"full close order placed SQDUSDT", some "SQDUSDT"⟩

/-- A structured log line announcing a close merely in progress. -/
def ginieClosingLine : LogLine :=
  ⟨"Ginie closing position SQDUSDT", some "SQDUSDT"⟩

/-- An unstructured log line that happens to match the grep pattern. -/
def plainGrepLine : LogLine :=
  ⟨"note sqdusdt still open, booking profit later", none⟩

/-- An older unstructured log line matching the grep pattern. -/
def oldGrepLine : LogLine :=
  ⟨"old entry sqdusdt booking profit", none⟩

/-- Claim C4: on the concrete input entry=100, reference=110, quantity=10,
side=LONG, leverage=5 (fee rate 0.0004), the ROI calculator returns
roi = 49.58 percent and net_pnl = 99.16. -/
theorem calculate_roi_concrete :
    calculate_roi 100 110 10 "LONG" 5 = (49.58, 99.16) := by
  norm_num [calculate_roi, calculate_roi_fee, FEE_RATE]

/-- Claim C9: the threshold lookup returns the exact configured percentage
when the mode is present in the threshold table and the configured default
(8.0) when it is absent, in both the `roi_monitor` and `monitor_sqdusdt`
tables; the lookup is a total function, so no mode can make it raise. -/
theorem threshold_lookup (mode : String) :
    (∀ v : ℚ, THRESHOLDS.lookup mode = some v → threshold_for mode = v) ∧
    (THRESHOLDS.lookup mode = none → threshold_for mode = 8) ∧
    (∀ v : ℚ, MON_THRESHOLDS.lookup mode = some v → mon_threshold_for mode = v) ∧
    (MON_THRESHOLDS.lookup mode = none → mon_threshold_for mode = 8) := by
  refine ⟨fun v h => ?_, fun h => ?_, fun v h => ?_, fun h => ?_⟩ <;>
    simp [threshold_for, mon_threshold_for, h]

/-- Witness for C9 at the present mode `scalp` and an absent mode. -/
theorem threshold_lookup_witness :
    threshold_for "scalp" = 5 ∧ threshold_for "unknown_mode" = 8 ∧
    mon_threshold_for "swing" = 8 ∧ mon_threshold_for "scalp" = 8 :=
  ⟨(threshold_lookup "scalp").1 5 (by decide),
   (threshold_lookup "unknown_mode").2.1 (by decide),
   (threshold_lookup "swing").2.2.1 8 (by decide),
   (threshold_lookup "scalp").2.2.2 (by decide)⟩

/-- Claim C5: zero leverage makes the returned ROI zero, and a non-positive
notional (`qty * entry <= 0`) makes both variants return zero outputs via
the guard placed before the division, so the division by `notional` is
never reached on non-positive notional. -/
theorem roi_guard_zero (entry current qty : ℚ) (side : String) (leverage : ℚ) :
    (leverage = 0 → (calculate_roi entry current qty side leverage).1 = 0 ∧
      mon_calculate_roi entry current qty side leverage = 0) ∧
    (qty * entry ≤ 0 → calculate_roi entry current qty side leverage = (0, 0) ∧
      mon_calculate_roi entry current qty side leverage = 0) := by
  constructor
  · rintro rfl
    constructor <;>
      · simp only [calculate_roi, calculate_roi_fee, mon_calculate_roi]
        split_ifs <;> simp
  · intro h
    constructor <;>
      · simp only [calculate_roi, calculate_roi_fee, mon_calculate_roi]
        rw [if_pos h]

/-- Witness for C5 at leverage 0 and at quantity 0. -/
theorem roi_guard_zero_witness :
    (calculate_roi 100 110 10 "LONG" 0).1 = 0 ∧
    calculate_roi 100 110 0 "LONG" 5 = (0, 0) :=
  ⟨((roi_guard_zero 100 110 10 "LONG" 0).1 rfl).1,
   ((roi_guard_zero 100 110 0 "LONG" 5).2 (by norm_num)).1⟩

/-- Claim C10: any side value other than the exact string "LONG" is treated
as SHORT by every calculator variant — the result coincides with the
result for side "SHORT", whose gross PnL is `(entry - reference) * qty`
(shown explicitly for positive notional); the functions are total, so no
side value is rejected. -/
theorem side_fallback (entry current qty : ℚ) (side : String) (leverage : ℚ)
    (h : side ≠ "LONG") :
    calculate_roi entry current qty side leverage =
      calculate_roi entry current qty "SHORT" leverage ∧
    mon_calculate_roi entry current qty side leverage =
      mon_calculate_roi entry current qty "SHORT" leverage ∧
    live_calculate_roi entry current qty side leverage =
      live_calculate_roi entry current qty "SHORT" leverage ∧
    (¬ qty * entry ≤ 0 →
      (calculate_roi entry current qty side leverage).2 =
        (entry - current) * qty -
          (qty * entry * FEE_RATE + current * qty * FEE_RATE)) := by
  refine ⟨?_, ?_, ?_, fun hn => ?_⟩
  · simp [calculate_roi, calculate_roi_fee, h]
  · simp [mon_calculate_roi, h]
  · simp [live_calculate_roi, h]
  · simp [calculate_roi, calculate_roi_fee, h, hn]

/-- Witness for C10 at the lowercase side "long". -/
theorem side_fallback_witness :
    calculate_roi 100 110 10 "long" 5 = calculate_roi 100 110 10 "SHORT" 5 :=
  (side_fallback 100 110 10 "long" 5 (by decide)).1

/-- Claim C8 (amended): for every entry > 0, qty > 0, fee rate > 0 and
every leverage > 0 (strictly positive, not merely non-negative), the ROI
at breakeven price (reference = entry, side LONG) is strictly negative:
fees always produce a loss at breakeven. -/
theorem breakeven_fee_loss (fee entry qty lev : ℚ) (hentry : 0 < entry)
    (hqty : 0 < qty) (hfee : 0 < fee) (hlev : 0 < lev) :
    (calculate_roi_fee fee entry entry qty "LONG" lev).1 < 0 := by
  have hpos : 0 < qty * entry := mul_pos hqty hentry
  have hfees : 0 < qty * entry * fee + entry * qty * fee := by positivity
  simp only [calculate_roi_fee]
  rw [if_neg (not_le.mpr hpos)]
  simp only [sub_self, zero_mul, ite_self, zero_sub]
  have h1 : -(qty * entry * fee + entry * qty * fee) * lev < 0 :=
    mul_neg_of_neg_of_pos (neg_neg_iff_pos.mpr hfees) hlev
  have h2 : -(qty * entry * fee + entry * qty * fee) * lev / (qty * entry) < 0 :=
    div_neg_of_neg_of_pos h1 hpos
  exact mul_neg_of_neg_of_pos h2 (by norm_num)

/-- Witness for C8 at fee 0.0004, entry 100, qty 10, leverage 5. -/
theorem breakeven_fee_loss_witness :
    (calculate_roi_fee (4/10000) 100 100 10 "LONG" 5).1 < 0 :=
  breakeven_fee_loss (4/10000) 100 10 5 (by norm_num) (by norm_num)
    (by norm_num) (by norm_num)

/-- Counterexample to C8 as stated: at leverage 0 — allowed by the claim's
"leverage >= 0" — with fee rate 0.0004 > 0, entry 100 > 0, qty 10 > 0, the
breakeven ROI is 0, not strictly negative. -/
theorem breakeven_lev_zero_counterexample :
    (0 : ℚ) < FEE_RATE ∧ (0 : ℚ) < 100 ∧ (0 : ℚ) < 10 ∧ (0 : ℚ) ≤ 0 ∧
    (calculate_roi 100 100 10 "LONG" 0).1 = 0 := by
  norm_num [calculate_roi, calculate_roi_fee, FEE_RATE]

/-- Helper: a non-absent line scan implies the structural facts the scan
requires — the structured symbol field equals SQDUSDT, the raw text holds
the symbol, and one of the two closure phrases is present. -/
lemma checkLine_props {l : LogLine} (h : checkLine l ≠ .absent) :
    l.fieldsSymbol = some "SQDUSDT" ∧ substrCS l.raw "SQDUSDT" ∧
      (substrCI l.raw "full close order placed" ∨
        substrCS l.raw "Ginie closing position") := by
  unfold checkLine at h
  split_ifs at h with h1 h2
  · exact ⟨h1.2.2, h1.2.1, Or.inl h1.1⟩
  · exact ⟨h2.2.2, h2.2.1, Or.inr h2.1⟩
  · exact absurd rfl h

/-- Helper: the most-recent-first scan yields a non-absent status iff some
line of the list scans non-absent. -/
lemma scanStatus_ne_absent_iff (ls : List LogLine) :
    scanStatus ls ≠ .absent ↔ ∃ l ∈ ls, checkLine l ≠ .absent := by
  induction ls with
  | nil => simp [scanStatus]
  | cons l rest ih =>
    cases h : checkLine l with
    | absent =>
      simp only [scanStatus, h, ih]
      constructor
      · rintro ⟨x, hx, hcx⟩
        exact ⟨x, List.mem_cons_of_mem l hx, hcx⟩
      · rintro ⟨x, hx, hcx⟩
        rcases List.mem_cons.mp hx with rfl | hx
        · exact absurd h hcx
        · exact ⟨x, hx, hcx⟩
    | confirmed =>
      simp only [scanStatus, h]
      exact ⟨fun _ => ⟨l, List.mem_cons_self l rest, by simp [h]⟩,
        fun _ => by simp⟩
    | closing =>
      simp only [scanStatus, h]
      exact ⟨fun _ => ⟨l, List.mem_cons_self l rest, by simp [h]⟩,
        fun _ => by simp⟩

/-- Helper: the scan of a concatenation is decided by its first (most
recent) part whenever that part already yields a match. -/
lemma scanStatus_append (a b : List LogLine) :
    scanStatus (a ++ b) =
      if scanStatus a = .absent then scanStatus b else scanStatus a := by
  induction a with
  | nil => simp [scanStatus]
  | cons l rest ih =>
    cases h : checkLine l with
    | absent => simpa [scanStatus, h] using ih
    | confirmed => simp [scanStatus, h]
    | closing => simp [scanStatus, h]

/-- Helper: every line of the lookback window is a line of the log. -/
lemma mem_of_mem_logWindow {l : LogLine} {lines : List LogLine}
    (h : l ∈ logWindow lines) : l ∈ lines :=
  List.mem_reverse.mp (List.take_subset _ _ h)

/-- Helper: on logs of at most 500 lines the window is the whole reversed
log. -/
lemma check_logs_of_le_length {newer : List LogLine} (h : newer.length ≤ 500) :
    check_logs_for_success newer = scanStatus newer.reverse := by
  unfold check_logs_for_success logWindow
  rw [List.take_of_length_le (by simpa using h)]

/-- Helper: grep output is non-empty iff some line matches the pattern. -/
lemma filter_grep_ne_nil_iff (logs : List LogLine) :
    logs.filter (fun l => matchesGrep l.raw) ≠ [] ↔
      ∃ l ∈ logs, matchesGrep l.raw = true := by
  constructor
  · intro h
    cases hf : logs.filter (fun l => matchesGrep l.raw) with
    | nil => exact absurd hf h
    | cons x xs =>
      have hx := hf ▸ List.mem_cons_self x xs
      have := List.mem_filter.mp hx
      exact ⟨x, this.1, this.2⟩
  · rintro ⟨l, hl, hm⟩ hnil
    have hmem : l ∈ logs.filter (fun l => matchesGrep l.raw) :=
      List.mem_filter.mpr ⟨hl, hm⟩
    rw [hnil] at hmem
    exact List.not_mem_nil l hmem

/-- Helper: the final report confirms exactly when grep output is
non-empty. -/
lemma mon_final_report_eq_iff (logs : List LogLine) :
    mon_final_report logs = .confirmedSuccess ↔
      logs.filter (fun l => matchesGrep l.raw) ≠ [] := by
  unfold mon_final_report check_server_log
  cases hf : logs.filter (fun l => matchesGrep l.raw) with
  | nil => simp
  | cons x xs => simp

/-- Claim C3 (amended): the live variant's closure correlation confirms
only via structural field equality (symbol field = SQDUSDT) combined with
a closure-phrase marker, and any match in the newest at most 500 lines
makes the older lines irrelevant (only the most recent lines decide); the
basic variant's `check_server_log`, by contrast, reports a confirmation
exactly when some line matches the case-insensitive substring pattern, with
no structured-field check and no most-recent restriction. -/
theorem log_correlation_spec :
    (∀ lines : List LogLine, check_logs_for_success lines ≠ .absent →
      ∃ l ∈ lines, l.fieldsSymbol = some "SQDUSDT" ∧ substrCS l.raw "SQDUSDT" ∧
        (substrCI l.raw "full close order placed" ∨
          substrCS l.raw "Ginie closing position")) ∧
    (∀ older newer : List LogLine, newer.length ≤ 500 →
      check_logs_for_success newer ≠ .absent →
      check_logs_for_success (older ++ newer) = check_logs_for_success newer) ∧
    (∀ lines : List LogLine, check_server_log lines ≠ none →
      ∃ l ∈ lines, matchesGrep l.raw = true) := by
  refine ⟨?_, ?_, ?_⟩
  · intro lines h
    obtain ⟨l, hl, hc⟩ :=
      (scanStatus_ne_absent_iff (logWindow lines)).mp h
    exact ⟨l, mem_of_mem_logWindow hl, checkLine_props hc⟩
  · intro older newer hlen h
    have h1 := check_logs_of_le_length hlen
    unfold check_logs_for_success logWindow
    rw [List.reverse_append, List.take_append_eq_append_take,
      List.length_reverse, List.take_of_length_le (by simpa using hlen)]
    rw [scanStatus_append, if_neg (by rw [← h1]; exact h)]
  · intro lines h
    refine (filter_grep_ne_nil_iff lines).mp ?_
    intro hnil
    unfold check_server_log at h
    rw [hnil] at h
    exact absurd rfl h

/-- Witness for C3 on concrete one- and two-line logs. -/
theorem log_correlation_spec_witness :
    (∃ l ∈ [fullCloseLine], l.fieldsSymbol = some "SQDUSDT" ∧
      substrCS l.raw "SQDUSDT" ∧
      (substrCI l.raw "full close order placed" ∨
        substrCS l.raw "Ginie closing position")) ∧
    check_logs_for_success ([oldGrepLine] ++ [fullCloseLine]) =
      check_logs_for_success [fullCloseLine] ∧
    (∃ l ∈ [plainGrepLine], matchesGrep l.raw = true) :=
  ⟨log_correlation_spec.1 [fullCloseLine] (by decide),
   log_correlation_spec.2.1 [oldGrepLine] [fullCloseLine] (by decide) (by decide),
   log_correlation_spec.2.2 [plainGrepLine] (by decide)⟩

/-- Counterexample to C3 as stated: `check_server_log` confirms a closure
for an unparsable log line with no structured symbol field at all, purely
by substring match, and its output keeps the older of two matches instead
of ignoring it. -/
theorem check_server_log_counterexample :
    check_server_log [plainGrepLine] = some [plainGrepLine] ∧
    plainGrepLine.fieldsSymbol ≠ some "SQDUSDT" ∧
    check_server_log [oldGrepLine, plainGrepLine] =
      some [oldGrepLine, plainGrepLine] := by decide

/-- Claim C2 (amended): when the symbol is absent from a successful
snapshot, the live watcher reports a confirmed success exactly when the
lookback window holds a line matching either the definitive full-close
pattern or the in-progress Ginie-closing pattern, and reports the
disappearance as unconfirmed exactly when no line matches; the basic
variant's final report confirms exactly when some log line matches its
grep pattern; the two report outcomes are distinct values, so a silent
disappearance is never surfaced as a confirmed success. -/
theorem disappearance_report_spec (logs : List LogLine) :
    (disappearance_report logs = .confirmedSuccess ↔
      ∃ l ∈ logWindow logs, checkLine l ≠ .absent) ∧
    (disappearance_report logs = .unconfirmedClosed ↔
      ∀ l ∈ logWindow logs, checkLine l = .absent) ∧
    (mon_final_report logs = .confirmedSuccess ↔
      ∃ l ∈ logs, matchesGrep l.raw = true) ∧
    (CloseReport.confirmedSuccess ≠ CloseReport.unconfirmedClosed) := by
  have key : disappearance_report logs = .confirmedSuccess ↔
      scanStatus (logWindow logs) ≠ .absent := by
    unfold disappearance_report check_logs_for_success
    cases h : scanStatus (logWindow logs) <;> simp [h]
  have key2 : disappearance_report logs = .unconfirmedClosed ↔
      scanStatus (logWindow logs) = .absent := by
    unfold disappearance_report check_logs_for_success
    cases h : scanStatus (logWindow logs) <;> simp [h]
  refine ⟨key.trans (scanStatus_ne_absent_iff _), ?_, ?_, by simp⟩
  · rw [key2]
    constructor
    · intro h l hl
      by_contra hc
      exact (scanStatus_ne_absent_iff _).mpr ⟨l, hl, hc⟩ h
    · intro h
      by_contra hc
      obtain ⟨l, hl, hcl⟩ := (scanStatus_ne_absent_iff _).mp hc
      exact hcl (h l hl)
  · exact (mon_final_report_eq_iff logs).trans (filter_grep_ne_nil_iff logs)

/-- Witness for C2 on a log holding a definitive full-close line. -/
theorem disappearance_report_spec_witness :
    disappearance_report [fullCloseLine] = .confirmedSuccess :=
  (disappearance_report_spec [fullCloseLine]).1.mpr
    ⟨fullCloseLine, by decide, by decide⟩

/-- Counterexample to C2 as stated: a log whose only match is an
in-progress "Ginie closing position" line — not a definitive
close-confirmation — still makes the live watcher print the confirmed
success report, because the truthy string `'closing'` passes the
`if success:` test. -/
theorem disappearance_closing_counterexample :
    disappearance_report [ginieClosingLine] = .confirmedSuccess ∧
    checkLine ginieClosingLine ≠ .confirmed ∧
    logWindow [ginieClosingLine] = [ginieClosingLine] := by decide

/-- Claim C1 (amended): on a failed snapshot query the live watcher emits
the fetch-failure warning, keeps monitoring (the loop continues), leaves
the ROI history and last ROI untouched, and schedules the next tick after
the normal poll interval; the basic `monitor_sqdusdt` watcher, by
contrast, cannot distinguish a failed query from a missing symbol and
terminates its monitoring loop with the position presumed closed. -/
theorem fetch_fail_tick (s : LiveState) (logs : List LogLine) (ms : MonState)
    (e : ℚ) (he : e ≤ MAX_MONITORING_TIME) :
    live_tick s none logs =
      .nextTick ⟨s.checkCount + 1, s.lastRoi, s.roiHistory⟩
        LIVE_CHECK_INTERVAL .fetchFailWarning ∧
    monitor_tick ms e none =
      .closedBreak ⟨ms.checkCount + 1, ms.lastRoi, ms.roiProgression⟩
        .notFound := by
  constructor
  · rfl
  · unfold monitor_tick
    rw [if_neg (not_lt.mpr he)]
    rfl

/-- Witness for C1 at a concrete initial state and a failed first tick. -/
theorem fetch_fail_tick_witness :
    live_tick ⟨0, none, []⟩ none [] =
      .nextTick ⟨1, none, []⟩ LIVE_CHECK_INTERVAL .fetchFailWarning ∧
    monitor_tick ⟨0, none, []⟩ 0 none =
      .closedBreak ⟨1, none, []⟩ .notFound :=
  fetch_fail_tick ⟨0, none, []⟩ [] ⟨0, none, []⟩ 0
    (by norm_num [MAX_MONITORING_TIME])

/-- Counterexample to C1 as stated: on the basic watcher a failed snapshot
query on the very first tick ends the monitoring loop (the outcome is the
break that sets `position_closed`), rather than staying active for the
next tick. -/
theorem monitor_fetch_fail_counterexample :
    monitor_tick ⟨0, none, []⟩ 0 none = .closedBreak ⟨1, none, []⟩ .notFound := by
  unfold monitor_tick
  rw [if_neg (by norm_num [MAX_MONITORING_TIME])]
  rfl

/-- Claim C6 (amended): when a tick sees ROI at or above the threshold
with the symbol still present, the basic `monitor_sqdusdt` watcher records
the sample and then terminates its monitoring loop (closure is delegated
to the external engine), while the live watcher emits the threshold-hit
status and keeps polling on the next tick. -/
theorem threshold_hit_behaviour (ms : MonState) (s : LiveState) (e : ℚ)
    (ps : List Position) (pos : Position) (logs : List LogLine)
    (he : e ≤ MAX_MONITORING_TIME)
    (hfind : ps.find? (fun p => p.symbol == "SQDUSDT") = some pos)
    (hmon : mon_threshold_for pos.mode ≤
      mon_calculate_roi pos.entry_price pos.highest_price pos.remaining_qty
        pos.side pos.leverage)
    (hlive : THRESHOLD ≤
      live_calculate_roi pos.entry_price pos.highest_price pos.remaining_qty
        pos.side pos.leverage) :
    monitor_tick ms e (some ps) =
      .closedBreak ⟨ms.checkCount + 1, ms.lastRoi,
        ms.roiProgression ++ [mon_calculate_roi pos.entry_price
          pos.highest_price pos.remaining_qty pos.side pos.leverage]⟩
        .thresholdHit ∧
    live_tick s (some ps) logs =
      .nextTick ⟨s.checkCount + 1,
        some (live_calculate_roi pos.entry_price pos.highest_price
          pos.remaining_qty pos.side pos.leverage),
        s.roiHistory ++ [live_calculate_roi pos.entry_price pos.highest_price
          pos.remaining_qty pos.side pos.leverage]⟩
        LIVE_CHECK_INTERVAL
        (.thresholdHit (live_calculate_roi pos.entry_price pos.highest_price
          pos.remaining_qty pos.side pos.leverage)) := by
  have h1 : find_sqdusdt_position (some ps) = some pos := by
    simpa [find_sqdusdt_position] using hfind
  constructor
  · simp only [monitor_tick, if_neg (not_lt.mpr he), h1, if_pos hmon]
  · simp only [live_tick, hfind, if_pos hlive]

/-- Witness for C6 at a concrete position with ROI 49.58% over the 8%
threshold. -/
theorem threshold_hit_behaviour_witness :
    monitor_tick ⟨0, none, []⟩ 0 (some [hitPos]) =
      .closedBreak ⟨1, none, [mon_calculate_roi 100 110 10 "LONG" 5]⟩
        .thresholdHit ∧
    live_tick ⟨0, none, []⟩ (some [hitPos]) [] =
      .nextTick ⟨1, some (live_calculate_roi 100 110 10 "LONG" 5),
        [live_calculate_roi 100 110 10 "LONG" 5]⟩
        LIVE_CHECK_INTERVAL
        (.thresholdHit (live_calculate_roi 100 110 10 "LONG" 5)) :=
  threshold_hit_behaviour ⟨0, none, []⟩ ⟨0, none, []⟩ 0 [hitPos] hitPos []
    (by norm_num [MAX_MONITORING_TIME]) rfl
    (by norm_num [hitPos, mon_calculate_roi, mon_threshold_for,
      MON_THRESHOLDS, FEE_RATE])
    (by norm_num [hitPos, live_calculate_roi, THRESHOLD, FEE_RATE])

/-- Counterexample to C6 as stated: with the symbol present and ROI
49.58% at or above the 8% threshold, the basic watcher's tick ends the
monitoring loop instead of continuing to poll until disappearance or
timeout. -/
theorem monitor_threshold_break_counterexample :
    monitor_tick ⟨0, none, []⟩ 0 (some [hitPos]) =
      .closedBreak ⟨1, none, [(49.58 : ℚ)]⟩ .thresholdHit := by
  norm_num [monitor_tick, MAX_MONITORING_TIME, find_sqdusdt_position,
    List.find?, hitPos, mon_calculate_roi, mon_threshold_for, MON_THRESHOLDS,
    FEE_RATE]

/-- Helper: a below-threshold successful tick within the time budget
appends exactly one ROI sample and continues with the normal interval. -/
lemma monitor_tick_good (st : MonState) (e : ℚ) (d : Option (List Position))
    (hle : e ≤ MAX_MONITORING_TIME) (pos : Position)
    (hf : find_sqdusdt_position d = some pos)
    (hroi : mon_calculate_roi pos.entry_price pos.highest_price
      pos.remaining_qty pos.side pos.leverage < mon_threshold_for pos.mode) :
    ∃ roi, monitor_tick st e d =
      .nextTick ⟨st.checkCount + 1, some roi, st.roiProgression ++ [roi]⟩
        CHECK_INTERVAL := by
  refine ⟨mon_calculate_roi pos.entry_price pos.highest_price
    pos.remaining_qty pos.side pos.leverage, ?_⟩
  simp only [monitor_tick, if_neg (not_lt.mpr hle), hf,
    if_neg (not_le.mpr hroi)]

/-- Claim C7: when every tick before the time budget is exceeded succeeds
with the symbol present and ROI below threshold, the session ends in the
timed-out terminal state regardless of the ROI then, and the ROI history
has grown by exactly one sample per successful tick. -/
theorem monitor_timeout_roi_history (s0 : MonState)
    (good : List (ℚ × Option (List Position))) (e : ℚ)
    (d : Option (List Position)) (rest : List (ℚ × Option (List Position)))
    (hgood : ∀ t ∈ good, monGoodTick t)
    (he : MAX_MONITORING_TIME < e) :
    ∃ s : MonState,
      monitor_run s0 (good ++ (e, d) :: rest) = .timedOut s ∧
      s.roiProgression.length = s0.roiProgression.length + good.length := by
  revert hgood
  induction good generalizing s0 with
  | nil =>
    intro _
    refine ⟨s0, ?_, by simp⟩
    simp only [List.nil_append, monitor_run, monitor_tick, if_pos he]
  | cons t ts ih =>
    intro hgood
    obtain ⟨e', d'⟩ := t
    obtain ⟨hle, pos, hf, hroi⟩ := hgood (e', d') (List.mem_cons_self _ _)
    obtain ⟨roi, htick⟩ := monitor_tick_good s0 e' d' hle pos hf hroi
    obtain ⟨s, hs, hlen⟩ :=
      ih ⟨s0.checkCount + 1, some roi, s0.roiProgression ++ [roi]⟩
        (fun t ht => hgood t (List.mem_cons_of_mem _ ht))
    refine ⟨s, ?_, ?_⟩
    · simpa only [List.cons_append, monitor_run, htick] using hs
    · rw [hlen]
      have hproj : (⟨s0.checkCount + 1, some roi,
          s0.roiProgression ++ [roi]⟩ : MonState).roiProgression =
          s0.roiProgression ++ [roi] := rfl
      rw [hproj, List.length_append, List.length_cons]
      simp
      omega

/-- Witness for C7 on a two-tick run: one successful below-threshold tick,
then a tick past the 3600-second budget. -/
theorem monitor_timeout_roi_history_witness :
    ∃ s : MonState,
      monitor_run ⟨0, none, []⟩ ([(0, some [flatPos])] ++ (3601, none) :: []) =
        .timedOut s ∧
      s.roiProgression.length =
        ([] : List ℚ).length + [((0 : ℚ), some [flatPos])].length :=
  monitor_timeout_roi_history ⟨0, none, []⟩ [(0, some [flatPos])] 3601 none []
    (by
      intro t ht
      simp only [List.mem_singleton] at ht
      subst ht
      exact ⟨by norm_num [MAX_MONITORING_TIME], flatPos, rfl,
        by norm_num [flatPos, mon_calculate_roi, mon_threshold_for,
          MON_THRESHOLDS, FEE_RATE]⟩)
    (by norm_num [MAX_MONITORING_TIME])

end Binance
